import Mathlib

/-!
Verification of the SYS_ERRORS structured-error utility.

The development shallowly embeds the JavaScript sources:
  - src/errors/errors.js (v0.1.5): formatMessage, validateDefinition,
    createError, checkErrorChain;
  - src/errors/system-error.js (v0.2.0): the SystemError constructor,
    its private formatMessage and toJSON;
  - src/errors/codes.js (v0.1.3): the ERROR_CODES registry.

JavaScript values are modelled by the inductive `JSVal`; machine strings are
Lean strings, numbers are integers (the claims only exercise integral
numbers), and thrown exceptions are modelled with `Except` whose error
component is the thrown Error value.  Stack traces are environment
dependent and are modelled by the fixed placeholder string "stacktrace".
-/

namespace SysErrors

/-- JavaScript runtime values, as far as the claims need them.
`errPlain` is a plain `Error` instance (constructor name, message, stack);
`errSystem` is a `SystemError` instance with the fields the v0.2.0
constructor assigns.  `message`, `msg` and `code` of a `SystemError` are
always strings by construction; `subsystem` and `docs` are stored verbatim
from the definition and may be any value. -/
inductive JSVal where
  | undef
  | null
  | bool (b : Bool)
  | num (n : Int)
  | str (s : String)
  | arr (elems : List JSVal)
  | obj (fields : List (String × JSVal))
  | errPlain (ctorName : String) (message : String) (stack : String)
  | errSystem (code : String) (message : String) (msg : String)
      (subsystem : JSVal) (context : JSVal) (recoverable : Bool)
      (original : JSVal) (docs : JSVal) (stack : String)
  deriving Repr

/-- The character `{` (witness for literal braces in templates). -/
def lbrace : Char := Char.ofNat 123

/-- The character `}`. -/
def rbrace : Char := Char.ofNat 125

/-- JavaScript truthiness. -/
def jsTruthy : JSVal → Bool
  | .undef => false
  | .null => false
  | .bool b => b
  | .num n => n != 0
  | .str s => s ≠ ""
  | _ => true

/-- Property read that cannot throw: returns `undefined` for primitives
without the property and for absent keys.  Mirrors JavaScript member access
on a value already known not to be `null`/`undefined`, plus the own
properties of `Error` and `SystemError` instances. -/
def jsGet : JSVal → String → JSVal
  | .obj fields, k => ((fields.find? (fun p => p.1 == k)).map Prod.snd).getD .undef
  | .errPlain ctor m st, k =>
      if k = "name" then .str ctor
      else if k = "message" then .str m
      else if k = "stack" then .str st
      else .undef
  | .errSystem code message msg subsystem context recoverable original docs stack, k =>
      if k = "name" then .str "SystemError"
      else if k = "code" then .str code
      else if k = "message" then .str message
      else if k = "msg" then .str msg
      else if k = "subsystem" then subsystem
      else if k = "context" then context
      else if k = "recoverable" then .bool recoverable
      else if k = "original" then original
      else if k = "docs" then docs
      else if k = "stack" then .str stack
      else .undef
  | _, _ => JSVal.undef

/-- Optional chaining `v?.k`: `undefined` when the receiver is nullish. -/
def jsOptChain (v : JSVal) (k : String) : JSVal :=
  match v with
  | .undef => .undef
  | .null => .undef
  | v => jsGet v k

/-- Plain member access `v.k`, which throws a `TypeError` when the receiver
is `null` or `undefined`. -/
def jsGetProp : JSVal → String → Except JSVal JSVal
  | .undef, k =>
      .error (.errPlain "TypeError"
        ("Cannot read properties of undefined (reading " ++ k ++ ")") "stacktrace")
  | .null, k =>
      .error (.errPlain "TypeError"
        ("Cannot read properties of null (reading " ++ k ++ ")") "stacktrace")
  | v, k => .ok (jsGet v k)

/-- Strict equality `===` on the values the claims compare.  Primitives are
compared structurally; object-typed values compare by reference in
JavaScript, which a value model cannot express, so they compare unequal
here (the claims only ever compare primitives through this relation). -/
def jsStrictEq : JSVal → JSVal → Bool
  | .undef, .undef => true
  | .null, .null => true
  | .bool a, .bool b => a == b
  | .num a, .num b => a == b
  | .str a, .str b => a == b
  | _, _ => false

/-- `instanceof Error`. -/
def isErrorInstance : JSVal → Bool
  | .errPlain _ _ _ => true
  | .errSystem _ _ _ _ _ _ _ _ _ => true
  | _ => false

/-- The `in` operator restricted to string keys of plain objects, as used by
the constructor on `this.context` (always an object there). -/
def jsHasKey : JSVal → String → Bool
  | .obj fields, k => fields.any (fun p => p.1 == k)
  | _, _ => false

mutual

/-- JavaScript `String(v)` / `.toString()` coercion for the values in play.
Errors stringify as `name: message` (or just the name when the message is
empty); arrays join their elements with commas, rendering nullish elements
as the empty string. -/
def jsToString : JSVal → String
  | .undef => "undefined"
  | .null => "null"
  | .bool b => if b then "true" else "false"
  | .num n => toString n
  | .str s => s
  | .arr elems => jsArrJoin elems
  | .obj _ => "[object Object]"
  | .errPlain ctor m _ => if m = "" then ctor else ctor ++ ": " ++ m
  | .errSystem _ message _ _ _ _ _ _ _ =>
      if message = "" then "SystemError" else "SystemError: " ++ message

/-- `Array.prototype.join(",")`, the array part of string coercion. -/
def jsArrJoin : List JSVal → String
  | [] => ""
  | x :: xs =>
      let sx := match x with
        | .undef => ""
        | .null => ""
        | v => jsToString v
      match xs with
      | [] => sx
      | _ => sx ++ "," ++ jsArrJoin xs

end

/-- `Array.prototype.join(sep)` with an explicit separator (used for the
missing-context-keys message). -/
def jsJoin (sep : String) : List JSVal → String
  | [] => ""
  | x :: xs =>
      let sx := match x with
        | .undef => ""
        | .null => ""
        | v => jsToString v
      match xs with
      | [] => sx
      | _ => sx ++ sep ++ jsJoin sep xs

/-- Minimal JSON string escaping (quote and backslash; the contexts the
claims exercise contain no control characters). -/
def jsonEscape (s : String) : String :=
  String.mk (s.data.foldr (fun c acc =>
    if c = '\x22' then '\\' :: '\x22' :: acc
    else if c = '\\' then '\\' :: '\\' :: acc
    else c :: acc) [])

/-- Whether any field of the remainder survives serialization (used to
decide comma placement). -/
def jsonStringifyFieldsNonempty : List (String × JSVal) → Bool
  | [] => false
  | (_, .undef) :: rest => jsonStringifyFieldsNonempty rest
  | _ => true

mutual

/-- `JSON.stringify` for the values in play.  `undefined`-valued object
fields are omitted; `message` and `stack` of errors are non-enumerable own
properties and are therefore not serialized, while the properties a
`SystemError` assigns in its constructor are enumerable and are.
The constructor's body is split between `mkSystemEntity` (field
population, steps 2-3 and 5) and `newSystemError` (the throwing checks,
steps 1 and 4). -/
def jsonStringify : JSVal → String
  | .undef => "undefined"
  | .null => "null"
  | .bool b => if b then "true" else "false"
  | .num n => toString n
  | .str s => "\x22" ++ jsonEscape s ++ "\x22"
  | .arr elems => "[" ++ jsonStringifyArr elems ++ "]"
  | .obj fields => "\x7b" ++ jsonStringifyFields fields ++ "\x7d"
  | .errPlain _ _ _ => "\x7b\x7d"
  | .errSystem code _ msg subsystem context recoverable original docs _ =>
      "\x7b\x22name\x22:\x22SystemError\x22,\x22code\x22:\x22" ++ jsonEscape code ++
      "\x22,\x22msg\x22:\x22" ++ jsonEscape msg ++ "\x22" ++
      (match subsystem with
        | .undef => ""
        | v => ",\x22subsystem\x22:" ++ jsonStringify v) ++
      (match context with
        | .undef => ""
        | v => ",\x22context\x22:" ++ jsonStringify v) ++
      ",\x22recoverable\x22:" ++ (if recoverable then "true" else "false") ++
      (match original with
        | .undef => ""
        | v => ",\x22original\x22:" ++ jsonStringify v) ++
      (match docs with
        | .undef => ""
        | v => ",\x22docs\x22:" ++ jsonStringify v) ++ "\x7d"

/-- Array elements of `JSON.stringify`; nullish elements serialize as
`null`. -/
def jsonStringifyArr : List JSVal → String
  | [] => ""
  | x :: xs =>
      let sx := match x with
        | .undef => "null"
        | v => jsonStringify v
      match xs with
      | [] => sx
      | _ => sx ++ "," ++ jsonStringifyArr xs

/-- Object fields of `JSON.stringify`; `undefined`-valued fields are
dropped. -/
def jsonStringifyFields : List (String × JSVal) → String
  | [] => ""
  | (k, v) :: rest =>
      match v with
      | .undef => jsonStringifyFields rest
      | v =>
          let sx := "\x22" ++ jsonEscape k ++ "\x22:" ++ jsonStringify v
          if jsonStringifyFieldsNonempty rest then sx ++ "," ++ jsonStringifyFields rest
          else sx

end

/-- Case-insensitive-ready substring test, the semantics of
`String.prototype.includes` (the empty needle always matches). -/
def jsIncludes (s needle : String) : Bool :=
  needle = "" || (s.splitOn needle).length ≥ 2

/-- `current.constructor.name` for a truthy value (the callers guard with a
truthiness check, so the nullish cases are unreachable; they map to the
empty string). -/
def constructorName : JSVal → String
  | .bool _ => "Boolean"
  | .num _ => "Number"
  | .str _ => "String"
  | .arr _ => "Array"
  | .obj _ => "Object"
  | .errPlain ctor _ _ => ctor
  | .errSystem _ _ _ _ _ _ _ _ _ => "SystemError"
  | _ => ""

/-- A freshly thrown `TypeError`, as a value. -/
def typeErrorVal (m : String) : JSVal := .errPlain "TypeError" m "stacktrace"

/-- The word characters of the placeholder regex `\x7b(\w+)\x7d`:
`[A-Za-z0-9_]`. -/
def isWordChar (c : Char) : Bool := c.isAlpha || c.isDigit || c = '_'

/-- The replacement callback of the exported `formatMessage` (errors.js
v0.1.5, lines 66-72): plain indexed access on the context (which throws on
a nullish context), `match` kept for `undefined`, then
`value?.toString() ?? match` (so also kept for `null`). -/
def replaceCb (context : JSVal) (key matchStr : String) : Except JSVal String :=
  match jsGetProp context key with
  | Except.error e => Except.error e
  | Except.ok value =>
      match value with
      | .undef => Except.ok matchStr
      | .null => Except.ok matchStr
      | v => Except.ok (jsToString v)

/-- `template.replace(re, cb)` for the global regex `\x7b(\w+)\x7d`, as the
engine scans it: a left-to-right, non-overlapping pass.  The mode argument
is `none` while scanning for an opening brace and `some acc` while inside a
candidate placeholder with the (reversed) word characters read so far.  A
candidate closes successfully at a closing brace after at least one word
character; at any other non-word character the attempt fails and the
consumed characters are emitted verbatim, the engine resuming at the
failing character (which can itself open a new candidate — only a brace
can, since a match must begin with one).  A callback throw propagates. -/
def replaceScan (context : JSVal) : Option (List Char) → List Char → Except JSVal (List Char)
  | none, [] => Except.ok []
  | none, c :: rest =>
      if c = lbrace then replaceScan context (some []) rest
      else
        match replaceScan context none rest with
        | Except.error e => Except.error e
        | Except.ok out => Except.ok (c :: out)
  | some acc, [] => Except.ok (lbrace :: acc.reverse)
  | some acc, c :: rest =>
      if isWordChar c then replaceScan context (some (c :: acc)) rest
      else if c = rbrace then
        if acc.isEmpty then
          match replaceScan context none rest with
          | Except.error e => Except.error e
          | Except.ok out => Except.ok (lbrace :: rbrace :: out)
        else
          let key := String.mk acc.reverse
          match replaceCb context key (String.mk (lbrace :: (acc.reverse ++ [rbrace]))) with
          | Except.error e => Except.error e
          | Except.ok repl =>
              match replaceScan context none rest with
              | Except.error e => Except.error e
              | Except.ok out => Except.ok (repl.data ++ out)
      else if c = lbrace then
        match replaceScan context (some []) rest with
        | Except.error e => Except.error e
        | Except.ok out => Except.ok (lbrace :: (acc.reverse ++ out))
      else
        match replaceScan context none rest with
        | Except.error e => Except.error e
        | Except.ok out => Except.ok (lbrace :: (acc.reverse ++ (c :: out)))

/-- The exported `formatMessage` of errors.js v0.1.5 (lines 62-73).  Only an
`undefined` template short-circuits to the empty string; any other
non-string template reaches `template.replace` and throws a `TypeError`.
The `context` parameter defaults to an empty object when `undefined`. -/
def formatMessage (template : JSVal) (context : JSVal) : Except JSVal String :=
  let ctx := match context with | .undef => JSVal.obj [] | v => v
  match template with
  | .undef => Except.ok ""
  | .str s =>
      match replaceScan ctx none s.data with
      | Except.error e => Except.error e
      | Except.ok out => Except.ok (String.mk out)
  | .null => Except.error (typeErrorVal "Cannot read properties of null (reading replace)")
  | _ => Except.error (typeErrorVal "template.replace is not a function")

/-- The replacement callback of the private `formatMessage` of
system-error.js v0.2.0 (lines 249-252): safe optional lookup
`context?.[key]`, substitution only for values that are neither `undefined`
nor `null`. -/
def replaceCbSE (context : JSVal) (key matchStr : String) : String :=
  match jsOptChain context key with
  | .undef => matchStr
  | .null => matchStr
  | v => jsToString v

/-- The scan of the private v0.2.0 `formatMessage`; identical placeholder
recognition to `replaceScan`, never throws. -/
def replaceScanSE (context : JSVal) : Option (List Char) → List Char → List Char
  | none, [] => []
  | none, c :: rest =>
      if c = lbrace then replaceScanSE context (some []) rest
      else c :: replaceScanSE context none rest
  | some acc, [] => lbrace :: acc.reverse
  | some acc, c :: rest =>
      if isWordChar c then replaceScanSE context (some (c :: acc)) rest
      else if c = rbrace then
        if acc.isEmpty then lbrace :: rbrace :: replaceScanSE context none rest
        else
          (replaceCbSE context (String.mk acc.reverse)
              (String.mk (lbrace :: (acc.reverse ++ [rbrace])))).data
            ++ replaceScanSE context none rest
      else if c = lbrace then lbrace :: (acc.reverse ++ replaceScanSE context (some []) rest)
      else lbrace :: (acc.reverse ++ (c :: replaceScanSE context none rest))

/-- The private `formatMessage` of system-error.js v0.2.0 (lines 243-253):
any non-string template yields the empty string. -/
def formatMessageSE (template : JSVal) (context : JSVal) : String :=
  let ctx := match context with | .undef => JSVal.obj [] | v => v
  match template with
  | .str s => String.mk (replaceScanSE ctx none s.data)
  | _ => ""

/-- The regex test `^[A-Z][A-Z0-9_]*$` of validateDefinition, applied after
JavaScript string coercion of the argument. -/
def codeFormatTest (s : String) : Bool :=
  match s.data with
  | [] => false
  | c :: rest => (('A' ≤ c && c ≤ 'Z') : Bool)
      && rest.all (fun d => ('A' ≤ d && d ≤ 'Z') || d.isDigit || d = '_')

/-- `validateDefinition` of errors.js v0.1.5 (lines 86-100): pushes, in
order, a missing-code problem when `definition?.code` is falsy, a
missing-message problem when `definition?.message` is falsy, and a format
problem when the code is truthy but fails the regex (whose argument is
string-coerced). -/
def validateDefinition (definition : JSVal) : List String :=
  (if jsTruthy (jsOptChain definition "code") then [] else ["Missing error code"]) ++
  (if jsTruthy (jsOptChain definition "message") then [] else ["Missing error message"]) ++
  (if jsTruthy (jsOptChain definition "code")
      && !(codeFormatTest (jsToString (jsGet definition "code")))
    then ["Invalid error code format"] else [])

/-- The `ERROR_CODES` registry of codes.js v0.1.3 (lines 14-59).  Note the
single namespace key is `SYS`; there is no `SYSTEM` key. -/
def ERROR_CODES : JSVal := .obj [("SYS", .obj [
  ("INITIALIZATION_FAILED", .obj [
    ("code", .str "SYS_INIT_FAILED"),
    ("message", .str "System initialization failed: \x7breason\x7d"),
    ("subsystem", .str "system"),
    ("recoverable", .bool false),
    ("docs", .str "docs/errors/system.md#initialization-failed")]),
  ("UNEXPECTED", .obj [
    ("code", .str "SYS_UNEXPECTED"),
    ("message", .str "Unexpected error occurred: \x7breason\x7d"),
    ("subsystem", .str "system"),
    ("recoverable", .bool false),
    ("docs", .str "docs/errors/system.md#unexpected")]),
  ("VALIDATION_FAILED", .obj [
    ("code", .str "SYS_VALIDATION_FAILED"),
    ("message", .str "Validation failed: \x7breason\x7d. Problems: \x7bproblemsText\x7d"),
    ("subsystem", .str "system"),
    ("recoverable", .bool true),
    ("contextKeys", .arr [.str "reason", .str "problems", .str "problemsText"]),
    ("docs", .str "docs/errors/system.md#validation-failed")]),
  ("NOT_IMPLEMENTED", .obj [
    ("code", .str "SYS_NOT_IMPLEMENTED"),
    ("message", .str "Feature not implemented: \x7bfeature\x7d"),
    ("subsystem", .str "system"),
    ("recoverable", .bool false),
    ("docs", .str "docs/errors/system.md#not-implemented")]),
  ("INVALID_ARGUMENT", .obj [
    ("code", .str "SYS_INVALID_ARGUMENT"),
    ("message", .str "Invalid argument \x7bname\x7d: \x7breason\x7d"),
    ("subsystem", .str "system"),
    ("recoverable", .bool true),
    ("contextKeys", .arr [.str "name", .str "reason"]),
    ("docs", .str "docs/errors/system.md#invalid-argument")])])]

/-- JavaScript parameter defaulting: a default value replaces exactly an
`undefined` argument. -/
def jsDefault (v dflt : JSVal) : JSVal :=
  match v with
  | .undef => dflt
  | v => v

/-- Line 312 of system-error.js v0.2.0:
`const strict = options.strict ?? process.env.NODE_ENV !== 'production'`.
Plain access on `options` throws when it is nullish; the nullish-coalescing
default is strict exactly when `NODE_ENV` is not `production` (also when it
is unset). -/
def resolveStrict (options : JSVal) (nodeEnv : Option String) : Except JSVal JSVal :=
  match jsGetProp options "strict" with
  | Except.error e => Except.error e
  | Except.ok raw =>
      match raw with
      | .undef => Except.ok (.bool (nodeEnv != some "production"))
      | .null => Except.ok (.bool (nodeEnv != some "production"))
      | v => Except.ok v

/-- The `SystemError` constructor of system-error.js v0.2.0 (lines
283-330).  Parameter defaults (`context = null`, `originalError = null`,
`options = \x7b\x7d`) apply to `undefined` arguments.  Steps: (1) throw a
plain `Error` unless `definition?.code` and `definition?.message` are both
strings; (2) render the message with the private formatMessage against
`context || \x7b\x7d`; (3) populate the fields (`subsystem` defaulted by
truthiness, `recoverable := definition.recoverable !== false`, `original`
kept only for `instanceof Error` causes); (4) resolve strictness from
`options.strict`, and in strict mode, when `definition.contextKeys` is a
non-empty array, throw a plain `Error` listing the contextKeys not present
(by `in`) in `this.context` and echoing `JSON.stringify(this.context)`;
(5) capture the stack (modelled by the placeholder "stacktrace"). -/
def mkSystemEntity (definition context1 originalError1 : JSVal)
    (codeStr msgTemplate : String) : JSVal :=
  let thisContext := if jsTruthy context1 then context1 else JSVal.obj []
  JSVal.errSystem codeStr
    (formatMessageSE (JSVal.str msgTemplate) thisContext)
    msgTemplate
    (if jsTruthy (jsGet definition "subsystem")
      then jsGet definition "subsystem" else JSVal.str "unknown")
    thisContext
    (!(jsStrictEq (jsGet definition "recoverable") (JSVal.bool false)))
    (if isErrorInstance originalError1 then originalError1 else JSVal.null)
    (jsGet definition "docs")
    "stacktrace"

/-- Steps 4-5 of the v0.2.0 constructor, after the definition shape check
has bound the string `code` and `message` and the parameter defaults have
been applied.  `this.context` is the source expression `context || \x7b\x7d`,
repeated where the source reads the property. -/
def newSystemErrorChecked (definition context1 originalError1 options1 : JSVal)
    (nodeEnv : Option String) (codeStr msgTemplate : String) : Except JSVal JSVal :=
  match resolveStrict options1 nodeEnv with
  | Except.error e => Except.error e
  | Except.ok strictV =>
      match jsGet definition "contextKeys" with
      | JSVal.arr keys =>
          if jsTruthy strictV && !keys.isEmpty then
            if !(keys.filter (fun k =>
                !(jsHasKey (if jsTruthy context1 then context1 else JSVal.obj [])
                  (jsToString k)))).isEmpty then
              Except.error (JSVal.errPlain "Error"
                ("SystemError [" ++ codeStr ++ "]: Missing required context keys: " ++
                  jsJoin ", " (keys.filter (fun k =>
                    !(jsHasKey (if jsTruthy context1 then context1 else JSVal.obj [])
                      (jsToString k)))) ++
                  ". Provided context: " ++
                  jsonStringify (if jsTruthy context1 then context1 else JSVal.obj []))
                "stacktrace")
            else Except.ok (mkSystemEntity definition context1 originalError1 codeStr msgTemplate)
          else Except.ok (mkSystemEntity definition context1 originalError1 codeStr msgTemplate)
      | _ => Except.ok (mkSystemEntity definition context1 originalError1 codeStr msgTemplate)

/-- The throwing part of the v0.2.0 `SystemError` constructor; see the doc
comment of `mkSystemEntity` for the step numbering.  Returns the
constructed entity, or the thrown plain `Error`. -/
def newSystemError (definition context originalError options : JSVal)
    (nodeEnv : Option String) : Except JSVal JSVal :=
  match jsOptChain definition "code", jsOptChain definition "message" with
  | JSVal.str codeStr, JSVal.str msgTemplate =>
      newSystemErrorChecked definition (jsDefault context JSVal.null)
        (jsDefault originalError JSVal.null) (jsDefault options (JSVal.obj []))
        nodeEnv codeStr msgTemplate
  | _, _ =>
      Except.error (JSVal.errPlain "Error"
        "SystemError constructor: Invalid or incomplete error definition passed." "stacktrace")

/-- `createError` of errors.js v0.1.5 (lines 119-158).  Strictness comes
from `options?.strict ?? NODE_ENV !== 'production'`.  In strict mode, when
`validateDefinition` reports problems, it returns a `SystemError` built
from `ERROR_CODES.SYS.VALIDATION_FAILED` with context
`\x7breason, problems, problemsText: problems.join(', ')\x7d`.  Otherwise
it constructs the requested `SystemError`; on a constructor throw the catch
block evaluates `ERROR_CODES.SYSTEM.UNEXPECTED` — and `ERROR_CODES` has no
`SYSTEM` key, so that member access is on `undefined`. -/
def createError (errorDefinition context originalError options : JSVal)
    (nodeEnv : Option String) : Except JSVal JSVal :=
  let strictV : JSVal :=
    match jsOptChain options "strict" with
    | .undef => .bool (nodeEnv != some "production")
    | .null => .bool (nodeEnv != some "production")
    | v => v
  let problems := if jsTruthy strictV then validateDefinition errorDefinition else []
  if !problems.isEmpty then
    newSystemError (jsGet (jsGet ERROR_CODES "SYS") "VALIDATION_FAILED")
      (JSVal.obj [("reason", .str "Invalid error definition"),
        ("problems", .arr (problems.map JSVal.str)),
        ("problemsText", .str (String.intercalate ", " problems))])
      originalError JSVal.undef nodeEnv
  else
    match newSystemError errorDefinition context originalError options nodeEnv with
    | Except.ok e => Except.ok e
    | Except.error caught =>
        match jsGetProp ERROR_CODES "SYSTEM" with
        | Except.error e => Except.error e
        | Except.ok sysNamespace =>
            match jsGetProp sysNamespace "UNEXPECTED" with
            | Except.error e => Except.error e
            | Except.ok unexpectedDef =>
                newSystemError unexpectedDef
                  (JSVal.obj [("reason",
                    if jsTruthy (jsGet caught "message") then jsGet caught "message"
                    else JSVal.str "Failed to create system error")])
                  caught JSVal.undef nodeEnv

/-- The keyword loop of checkErrorChain (lines 204-208): every keyword,
lowercased, must occur in the lowercased current message. -/
def checkKeywords (currentMessage curMsg : String) (keywords : List JSVal)
    (index : Nat) : Except JSVal Unit :=
  match keywords with
  | [] => Except.ok ()
  | kw :: rest =>
      match kw with
      | JSVal.str k =>
          if !(jsIncludes currentMessage k.toLower) then
            Except.error (JSVal.errPlain "Error"
              ("Error message at chain position " ++ toString index ++
                " does not contain keyword: " ++ k ++ "\nMessage: \x22" ++ curMsg ++ "\x22")
              "stacktrace")
          else checkKeywords currentMessage curMsg rest index
      | _ => Except.error (typeErrorVal "keyword.toLowerCase is not a function")

/-- The message check of checkErrorChain (lines 194-215): only performed
when `expected.message` is truthy; first requires a truthy
`current.message`, then compares lowercased fragments by substring. -/
def checkChainMessage (current expected : JSVal) (index : Nat) : Except JSVal Unit :=
  if jsTruthy (jsGet expected "message") then
    if !(jsTruthy (jsGet current "message")) then
      Except.error (JSVal.errPlain "Error"
        ("Error at chain position " ++ toString index ++
          " does not have a message property\nError: " ++ jsonStringify current) "stacktrace")
    else
      match jsGet current "message" with
      | JSVal.str curMsg =>
          let currentMessage := curMsg.toLower
          match jsGet expected "message" with
          | JSVal.arr keywords => checkKeywords currentMessage curMsg keywords index
          | JSVal.str frag =>
              if !(jsIncludes currentMessage frag.toLower) then
                Except.error (JSVal.errPlain "Error"
                  ("Error message at chain position " ++ toString index ++
                    " does not contain: " ++ frag ++ "\nMessage: \x22" ++ curMsg ++ "\x22")
                  "stacktrace")
              else Except.ok ()
          | _ => Except.error (typeErrorVal "expected.message.toLowerCase is not a function")
      | _ => Except.error (typeErrorVal "current.message.toLowerCase is not a function")
  else Except.ok ()

/-- The `while (current && index < expectedChain.length)` loop of
checkErrorChain (lines 180-219).  Each iteration checks code, then type,
then message of the current level, and advances to `current.original`.
The loop exits — returning `true` — as soon as the current value is falsy
OR the expected levels are exhausted; there is no length comparison. -/
def checkChainLoop : JSVal → Nat → List JSVal → Except JSVal Bool
  | _, _, [] => Except.ok true
  | current, index, expected :: rest =>
      if jsTruthy current then
        if jsTruthy (jsGet expected "code")
            && !(jsStrictEq (jsGet current "code") (jsGet expected "code")) then
          Except.error (JSVal.errPlain "Error"
            ("Unexpected error code at chain position " ++ toString index ++
              ". Expected: " ++ jsToString (jsGet expected "code") ++ ", got: " ++
              jsToString (jsGet current "code") ++ ", \x22" ++
              jsToString (jsGet current "message") ++ "\x22") "stacktrace")
        else if jsTruthy (jsGet expected "type")
            && !(jsStrictEq (JSVal.str (constructorName current)) (jsGet expected "type")) then
          Except.error (JSVal.errPlain "Error"
            ("Unexpected error type at chain position " ++ toString index ++
              ". Expected: " ++ jsToString (jsGet expected "type") ++ ", got: " ++
              constructorName current ++ ", \x22" ++
              jsToString (jsGet current "message") ++ "\x22") "stacktrace")
        else
          match checkChainMessage current expected index with
          | Except.error e => Except.error e
          | Except.ok _ => checkChainLoop (jsGet current "original") (index + 1) rest
      else Except.ok true

/-- `checkErrorChain` of errors.js v0.1.5 (lines 176-222). -/
def checkErrorChain (error : JSVal) (expectedChain : List JSVal) : Except JSVal Bool :=
  checkChainLoop error 0 expectedChain

/-- The length of the `original` chain of a `SystemError` value: the
recursion depth of `toJSON`, one call per chain level. -/
def errDepth : JSVal → Nat
  | .errSystem _ _ _ _ _ _ original _ _ => errDepth original + 1
  | _ => 0

/-- `SystemError.prototype.toJSON` of system-error.js v0.2.0 (lines
366-394), with the recursion bounded by the chain depth (the fuel argument
of `toJSONFuel`; the wrapper `toJSON` supplies exactly the chain depth, so
the zero-fuel case is never reached from it).  A truthy `original` is
serialized by delegating to its own `toJSON` when it has one (that is,
when it is itself a `SystemError`), otherwise by the minimal
`name`/`message`/`stack` record; an absent original leaves the field
`undefined`.  Only `SystemError` values have this method; on other values
the result is `undefined` (unreachable in the modelled programs). -/
def toJSONFuel : Nat → JSVal → JSVal
  | Nat.succ fuel, .errSystem code message msg subsystem context recoverable original docs stack =>
      let originalErrorJSON : JSVal :=
        match original with
        | .errSystem _ _ _ _ _ _ _ _ _ => toJSONFuel fuel original
        | .errPlain n m s =>
            JSVal.obj [("name", .str n), ("message", .str m), ("stack", .str s)]
        | _ => JSVal.undef
      JSVal.obj [("name", .str "SystemError"), ("code", .str code),
        ("message", .str message), ("msg", .str msg), ("subsystem", subsystem),
        ("context", context), ("recoverable", .bool recoverable), ("docs", docs),
        ("stack", .str stack), ("original", originalErrorJSON)]
  | _, _ => JSVal.undef

/-- `toJSON()` on a value, invoking `toJSONFuel` with the exact chain
depth. -/
def toJSON (v : JSVal) : JSVal := toJSONFuel (errDepth v) v

/-- The `original` field of a constructed `SystemError` value. -/
def seOriginal : JSVal → JSVal
  | .errSystem _ _ _ _ _ _ original _ _ => original
  | _ => JSVal.undef

/-- The `recoverable` field of a constructed `SystemError` value. -/
def seRecoverable : JSVal → Bool
  | .errSystem _ _ _ _ _ recoverable _ _ _ => recoverable
  | _ => true

/-- The key sequence of an object record (used to state the exact field
list of a serialized error). -/
def objKeys : JSVal → List String
  | .obj fields => fields.map Prod.fst
  | _ => []

/-!
## Helper lemmas
-/

/-- Whenever the v0.2.0 constructor returns normally, the result is the
entity populated by `mkSystemEntity` from the defaulted arguments, and the
definition had string `code` and `message`. -/
theorem newSystemError_ok_shape
    {definition context originalError options : JSVal} {nodeEnv : Option String} {e : JSVal}
    (h : newSystemError definition context originalError options nodeEnv = Except.ok e) :
    ∃ codeStr msgTemplate,
      jsOptChain definition "code" = JSVal.str codeStr ∧
      jsOptChain definition "message" = JSVal.str msgTemplate ∧
      e = mkSystemEntity definition (jsDefault context JSVal.null)
        (jsDefault originalError JSVal.null) codeStr msgTemplate := by
  unfold newSystemError at h
  split at h
  · rename_i codeStr msgTemplate heq1 heq2
    refine ⟨codeStr, msgTemplate, heq1, heq2, ?_⟩
    unfold newSystemErrorChecked at h
    repeat' split at h
    all_goals first
      | exact (Except.ok.inj h).symm
      | exact absurd h (by simp)
  · exact absurd h (by simp)

/-!
## Claim theorems
-/

/-- C3: the claim states that for absent / non-record / sequence inputs
(`null`, `undefined`, `42`, `[]`) `validateDefinition` returns exactly one
problem indicating the definition itself is missing or invalid.  Evaluating
the code at those inputs shows it instead returns TWO field-level problems
("Missing error code" and "Missing error message") and no
definition-invalid problem, contradicting the repository's own test suite,
which expects `["Definition is missing or invalid."]` for each of these
inputs. -/
theorem validateDefinition_nonrecord_two_problems :
    validateDefinition JSVal.null = ["Missing error code", "Missing error message"] ∧
    validateDefinition JSVal.undef = ["Missing error code", "Missing error message"] ∧
    validateDefinition (JSVal.num 42) = ["Missing error code", "Missing error message"] ∧
    validateDefinition (JSVal.arr []) = ["Missing error code", "Missing error message"] :=
  ⟨rfl, rfl, rfl, rfl⟩

/-- C5: the claim states the message templater returns the empty string for
every non-string template (`null`, `undefined`, `123`) and raises no error.
Evaluating the exported `formatMessage` of errors.js v0.1.5 shows that only
`undefined` yields the empty string, while `null` and `123` reach
`template.replace` and throw a `TypeError` — contradicting the repository's
own test suite, which expects the empty string for `null`, `123` and
`\x7b\x7d` as well. -/
theorem formatMessage_nonstring_template_throws :
    formatMessage JSVal.null JSVal.undef =
      Except.error (typeErrorVal "Cannot read properties of null (reading replace)") ∧
    formatMessage (JSVal.num 123) JSVal.undef =
      Except.error (typeErrorVal "template.replace is not a function") ∧
    formatMessage JSVal.undef JSVal.undef = Except.ok "" :=
  ⟨rfl, rfl, rfl⟩

/-- C4: the claim states that on a strict-mode validation failure
`createError` returns a `VALIDATION_FAILED` entity with context
`reason = "Invalid error definition provided to createError"`, the problem
list, `problemsText` joined by "; ", and the rejected definition under
`invalidDefinition`.  Evaluating the code on the definition
`\x7bmessage: "Only message"\x7d` in strict mode shows the context instead
carries `reason = "Invalid error definition"`, `problemsText` joined by
", ", and no `invalidDefinition` field at all — contradicting the
repository's own test suite, which asserts the longer reason string. -/
theorem createError_validation_failed_context_fields :
    createError (JSVal.obj [("message", JSVal.str "Only message")]) (JSVal.obj [])
        (JSVal.errPlain "Error" "Original Cause" "stacktrace") JSVal.undef (some "development") =
      Except.ok (JSVal.errSystem "SYS_VALIDATION_FAILED"
        "Validation failed: Invalid error definition. Problems: Missing error code"
        "Validation failed: \x7breason\x7d. Problems: \x7bproblemsText\x7d"
        (JSVal.str "system")
        (JSVal.obj [("reason", JSVal.str "Invalid error definition"),
          ("problems", JSVal.arr [JSVal.str "Missing error code"]),
          ("problemsText", JSVal.str "Missing error code")])
        true (JSVal.errPlain "Error" "Original Cause" "stacktrace")
        (JSVal.str "docs/errors/system.md#validation-failed") "stacktrace") := rfl

/-- C1: the claim states `createError` never raises: when the `SystemError`
constructor throws, it should catch and return an entity built from the
well-known `UNEXPECTED` definition.  Evaluating the code shows otherwise:
the catch block reads `ERROR_CODES.SYSTEM.UNEXPECTED`, but the registry has
only a `SYS` namespace, so the member access is performed on `undefined`
and a `TypeError` escapes `createError`.  The two conjuncts exercise both
reachable paths into the catch block: a strict-mode constructor throw
(missing required context keys) and a lenient-mode constructor throw
(definition without a string code). -/
theorem createError_unexpected_fallback_throws :
    createError (jsGet (jsGet ERROR_CODES "SYS") "VALIDATION_FAILED")
        (JSVal.obj [("reason", JSVal.str "Missing problems key"),
          ("problemsText", JSVal.str "problems missing")])
        JSVal.null JSVal.undef (some "development") =
      Except.error (typeErrorVal "Cannot read properties of undefined (reading UNEXPECTED)") ∧
    createError (JSVal.obj [("message", JSVal.str "Only message")]) JSVal.undef JSVal.null
        (JSVal.obj [("strict", JSVal.bool false)]) (some "development") =
      Except.error (typeErrorVal "Cannot read properties of undefined (reading UNEXPECTED)") :=
  ⟨rfl, rfl⟩

/-- C2: the claim states `checkErrorChain` returns `true` only on an exact
length match, signalling a failure both when the chain ends while expected
levels remain and when the chain is longer than the expected list.
Evaluating the code shows neither failure exists: the walk is a
`while (current && index < expectedChain.length)` loop with no length
comparison, so a two-level chain checked against one expected level and a
one-level chain checked against two expected levels both return `true` —
contradicting the repository's own test suite, which expects descriptive
throws in both directions. -/
theorem checkErrorChain_length_mismatch_returns_true :
    checkErrorChain
        (JSVal.errSystem "A" "message a" "message a" (JSVal.str "s") (JSVal.obj []) true
          (JSVal.errSystem "B" "message b" "message b" (JSVal.str "s") (JSVal.obj []) true
            JSVal.null JSVal.undef "stacktrace")
          JSVal.undef "stacktrace")
        [JSVal.obj [("code", JSVal.str "A")]] = Except.ok true ∧
    checkErrorChain
        (JSVal.errSystem "B" "message b" "message b" (JSVal.str "s") (JSVal.obj []) true
          JSVal.null JSVal.undef "stacktrace")
        [JSVal.obj [("code", JSVal.str "B")], JSVal.obj [("code", JSVal.str "C")]] =
      Except.ok true :=
  ⟨rfl, rfl⟩

/-- C8: `toJSON()` on a `StructuredError` returns a record with exactly the
fields name, code, message, msg, subsystem, context, recoverable, docs,
stack, original, where `original` is the cause's own `toJSON()` result when
the cause exposes a `toJSON` operation; for a chain of `SystemError`s three
deep the top serialization nests `original.original` records with all three
codes recoverable and the deepest `original` absent (`undefined`), and a
plain (non-`SystemError`) cause is embedded as the minimal record of its
name, message and stack. -/
theorem toJSON_chain_serialization
    (c1 c2 c3 m1 m2 m3 t1 t2 t3 pn pm ps st1 st2 st3 : String)
    (ss1 ss2 ss3 ctx1 ctx2 ctx3 d1 d2 d3 : JSVal) (r1 r2 r3 : Bool) :
    objKeys (toJSON (JSVal.errSystem c1 m1 t1 ss1 ctx1 r1
        (JSVal.errSystem c2 m2 t2 ss2 ctx2 r2
          (JSVal.errSystem c3 m3 t3 ss3 ctx3 r3 JSVal.null d3 st3) d2 st2) d1 st1)) =
      ["name", "code", "message", "msg", "subsystem", "context", "recoverable",
        "docs", "stack", "original"] ∧
    jsGet (toJSON (JSVal.errSystem c1 m1 t1 ss1 ctx1 r1
        (JSVal.errSystem c2 m2 t2 ss2 ctx2 r2
          (JSVal.errSystem c3 m3 t3 ss3 ctx3 r3 JSVal.null d3 st3) d2 st2) d1 st1))
      "original" =
      toJSON (JSVal.errSystem c2 m2 t2 ss2 ctx2 r2
        (JSVal.errSystem c3 m3 t3 ss3 ctx3 r3 JSVal.null d3 st3) d2 st2) ∧
    jsGet (toJSON (JSVal.errSystem c1 m1 t1 ss1 ctx1 r1
        (JSVal.errSystem c2 m2 t2 ss2 ctx2 r2
          (JSVal.errSystem c3 m3 t3 ss3 ctx3 r3 JSVal.null d3 st3) d2 st2) d1 st1))
      "code" = JSVal.str c1 ∧
    jsGet (jsGet (toJSON (JSVal.errSystem c1 m1 t1 ss1 ctx1 r1
        (JSVal.errSystem c2 m2 t2 ss2 ctx2 r2
          (JSVal.errSystem c3 m3 t3 ss3 ctx3 r3 JSVal.null d3 st3) d2 st2) d1 st1))
      "original") "code" = JSVal.str c2 ∧
    jsGet (jsGet (jsGet (toJSON (JSVal.errSystem c1 m1 t1 ss1 ctx1 r1
        (JSVal.errSystem c2 m2 t2 ss2 ctx2 r2
          (JSVal.errSystem c3 m3 t3 ss3 ctx3 r3 JSVal.null d3 st3) d2 st2) d1 st1))
      "original") "original") "code" = JSVal.str c3 ∧
    jsGet (jsGet (jsGet (toJSON (JSVal.errSystem c1 m1 t1 ss1 ctx1 r1
        (JSVal.errSystem c2 m2 t2 ss2 ctx2 r2
          (JSVal.errSystem c3 m3 t3 ss3 ctx3 r3 JSVal.null d3 st3) d2 st2) d1 st1))
      "original") "original") "original" = JSVal.undef ∧
    jsGet (toJSON (JSVal.errSystem c1 m1 t1 ss1 ctx1 r1
        (JSVal.errPlain pn pm ps) d1 st1)) "original" =
      JSVal.obj [("name", JSVal.str pn), ("message", JSVal.str pm), ("stack", JSVal.str ps)] :=
  ⟨rfl, rfl, rfl, rfl, rfl, rfl, rfl⟩

/-- C9: every successfully constructed `SystemError` has an `original` that
is either `null` or an `Error` instance, and whenever the `originalError`
argument is not an `Error` instance the constructed entity's `original` is
`null`, for every definition, context and options. -/
theorem systemError_original_invariant
    (definition context originalError options : JSVal) (nodeEnv : Option String) (e : JSVal)
    (h : newSystemError definition context originalError options nodeEnv = Except.ok e) :
    (seOriginal e = JSVal.null ∨ isErrorInstance (seOriginal e) = true) ∧
    (isErrorInstance originalError = false → seOriginal e = JSVal.null) := by
  obtain ⟨codeStr, msgTemplate, -, -, he⟩ := newSystemError_ok_shape h
  subst he
  have hd : isErrorInstance (jsDefault originalError JSVal.null) = isErrorInstance originalError := by
    cases originalError <;> rfl
  constructor
  · by_cases hoe : isErrorInstance (jsDefault originalError JSVal.null) = true
    · right
      simp [mkSystemEntity, seOriginal, hoe]
    · left
      simp only [Bool.not_eq_true] at hoe
      simp [mkSystemEntity, seOriginal, hoe]
  · intro hfalse
    rw [hfalse] at hd
    simp [mkSystemEntity, seOriginal, hd]

/-- Closed witness for C9 at a concrete input: constructing with a string
(non-`Error`) cause in lenient mode yields `original = null`. -/
theorem systemError_original_invariant_witness :
    (seOriginal (JSVal.errSystem "X" "m" "m" (JSVal.str "unknown") (JSVal.obj []) true
        JSVal.null JSVal.undef "stacktrace") = JSVal.null ∨
      isErrorInstance (seOriginal (JSVal.errSystem "X" "m" "m" (JSVal.str "unknown")
        (JSVal.obj []) true JSVal.null JSVal.undef "stacktrace")) = true) ∧
    (isErrorInstance (JSVal.str "not an error") = false →
      seOriginal (JSVal.errSystem "X" "m" "m" (JSVal.str "unknown") (JSVal.obj []) true
        JSVal.null JSVal.undef "stacktrace") = JSVal.null) :=
  systemError_original_invariant
    (JSVal.obj [("code", JSVal.str "X"), ("message", JSVal.str "m")])
    (JSVal.obj []) (JSVal.str "not an error") JSVal.undef (some "production")
    (JSVal.errSystem "X" "m" "m" (JSVal.str "unknown") (JSVal.obj []) true
      JSVal.null JSVal.undef "stacktrace") rfl

/-- C10: for every constructed `SystemError`, the `recoverable` attribute is
`false` exactly when `definition.recoverable` is the boolean `false`; every
other value of `definition.recoverable` (absent, null, 0, a string, any
truthy value) yields `recoverable = true`. -/
theorem systemError_recoverable_iff
    (definition context originalError options : JSVal) (nodeEnv : Option String) (e : JSVal)
    (h : newSystemError definition context originalError options nodeEnv = Except.ok e) :
    seRecoverable e = false ↔ jsGet definition "recoverable" = JSVal.bool false := by
  obtain ⟨codeStr, msgTemplate, -, -, he⟩ := newSystemError_ok_shape h
  subst he
  simp only [mkSystemEntity, seRecoverable, Bool.not_eq_false']
  cases hv : jsGet definition "recoverable" <;> simp [jsStrictEq]

/-- Closed witness for C10 at a concrete input: a definition carrying
`recoverable: 0` (falsy but not the boolean `false`) yields
`recoverable = true` on the constructed entity. -/
theorem systemError_recoverable_iff_witness :
    (seRecoverable (JSVal.errSystem "X" "m" "m" (JSVal.str "unknown") (JSVal.obj []) true
        JSVal.null JSVal.undef "stacktrace") = false ↔
      jsGet (JSVal.obj [("code", JSVal.str "X"), ("message", JSVal.str "m"),
        ("recoverable", JSVal.num 0)]) "recoverable" = JSVal.bool false) :=
  systemError_recoverable_iff
    (JSVal.obj [("code", JSVal.str "X"), ("message", JSVal.str "m"),
      ("recoverable", JSVal.num 0)])
    (JSVal.obj []) JSVal.null JSVal.undef (some "production")
    (JSVal.errSystem "X" "m" "m" (JSVal.str "unknown") (JSVal.obj []) true
      JSVal.null JSVal.undef "stacktrace") rfl

/-- C6: for every `SystemError` constructed in strict mode from a
definition whose `contextKeys` is a non-empty sequence (and whose `code`
and `message` are strings, so construction reaches the contextKeys check),
construction fails with a generic plain `Error` exactly when some key of
`contextKeys` is not present — as a key, regardless of value — in the
supplied (keyed) context, and the failure message lists the missing key
names and echoes the full context via `JSON.stringify`. -/
theorem systemError_strict_missing_contextKeys
    (definition : JSVal) (ctxFields : List (String × JSVal)) (originalError options : JSVal)
    (nodeEnv : Option String) (codeStr msgTemplate : String) (keys : List JSVal)
    (strictV : JSVal)
    (hcode : jsOptChain definition "code" = JSVal.str codeStr)
    (hmsg : jsOptChain definition "message" = JSVal.str msgTemplate)
    (hkeys : jsGet definition "contextKeys" = JSVal.arr keys)
    (hne : keys ≠ [])
    (hstrict : resolveStrict (jsDefault options (JSVal.obj [])) nodeEnv = Except.ok strictV)
    (htruthy : jsTruthy strictV = true) :
    ((∃ e, newSystemError definition (JSVal.obj ctxFields) originalError options nodeEnv
        = Except.error e) ↔
      ∃ k ∈ keys, jsHasKey (JSVal.obj ctxFields) (jsToString k) = false) ∧
    ∀ e, newSystemError definition (JSVal.obj ctxFields) originalError options nodeEnv
        = Except.error e →
      e = JSVal.errPlain "Error"
        ("SystemError [" ++ codeStr ++ "]: Missing required context keys: " ++
          jsJoin ", " (keys.filter (fun k =>
            !(jsHasKey (JSVal.obj ctxFields) (jsToString k)))) ++
          ". Provided context: " ++ jsonStringify (JSVal.obj ctxFields)) "stacktrace" := by
  have hkne : keys.isEmpty = false := by
    cases keys
    · exact absurd rfl hne
    · rfl
  unfold newSystemError
  rw [hcode, hmsg]
  dsimp only
  unfold newSystemErrorChecked
  have hd : jsDefault (JSVal.obj ctxFields) JSVal.null = JSVal.obj ctxFields := rfl
  rw [hd, hstrict]
  dsimp only
  rw [hkeys]
  dsimp only
  rw [htruthy, hkne]
  simp only [Bool.not_false, Bool.and_self,
    show jsTruthy (JSVal.obj ctxFields) = true from rfl, eq_self_iff_true, if_true]
  by_cases hmiss : (keys.filter (fun k =>
      !(jsHasKey (JSVal.obj ctxFields) (jsToString k)))).isEmpty
  · rw [hmiss]
    simp only [Bool.not_true, Bool.false_eq_true, if_false]
    constructor
    · constructor
      · rintro ⟨e, he⟩
        exact absurd he (by simp)
      · rintro ⟨k, hk, hmem⟩
        rw [List.isEmpty_iff, List.filter_eq_nil_iff] at hmiss
        exact absurd (by simp [hmem]) (hmiss k hk)
    · intro e he
      exact absurd he (by simp)
  · rw [Bool.not_eq_true] at hmiss
    rw [hmiss]
    simp only [Bool.not_false, eq_self_iff_true, if_true]
    constructor
    · constructor
      · intro _
        have : ¬ (keys.filter (fun k =>
            !(jsHasKey (JSVal.obj ctxFields) (jsToString k)))).isEmpty = true := by
          rw [hmiss]; simp
        rw [List.isEmpty_iff, List.filter_eq_nil_iff] at this
        push_neg at this
        obtain ⟨k, hk, hkk⟩ := this
        refine ⟨k, hk, ?_⟩
        simpa using hkk
      · intro _
        exact ⟨_, rfl⟩
    · intro e he
      exact (Except.error.inj he).symm

/-- Closed witness for C6 at a concrete input: the `VALIDATION_FAILED`
definition requires `reason`, `problems`, `problemsText`; a context
supplying only `reason` (with a null value, still counting as present)
makes construction fail, and the thrown message lists the two missing keys
and echoes the context. -/
theorem systemError_strict_missing_contextKeys_witness :
    ((∃ e, newSystemError (jsGet (jsGet ERROR_CODES "SYS") "VALIDATION_FAILED")
        (JSVal.obj [("reason", JSVal.null)]) JSVal.null
        (JSVal.obj [("strict", JSVal.bool true)]) (some "development")
        = Except.error e) ↔
      ∃ k ∈ [JSVal.str "reason", JSVal.str "problems", JSVal.str "problemsText"],
        jsHasKey (JSVal.obj [("reason", JSVal.null)]) (jsToString k) = false) ∧
    ∀ e, newSystemError (jsGet (jsGet ERROR_CODES "SYS") "VALIDATION_FAILED")
        (JSVal.obj [("reason", JSVal.null)]) JSVal.null
        (JSVal.obj [("strict", JSVal.bool true)]) (some "development")
        = Except.error e →
      e = JSVal.errPlain "Error"
        ("SystemError [" ++ "SYS_VALIDATION_FAILED" ++ "]: Missing required context keys: " ++
          jsJoin ", " ([JSVal.str "reason", JSVal.str "problems", JSVal.str "problemsText"].filter
            (fun k => !(jsHasKey (JSVal.obj [("reason", JSVal.null)]) (jsToString k)))) ++
          ". Provided context: " ++ jsonStringify (JSVal.obj [("reason", JSVal.null)]))
        "stacktrace" :=
  systemError_strict_missing_contextKeys
    (jsGet (jsGet ERROR_CODES "SYS") "VALIDATION_FAILED")
    [("reason", JSVal.null)] JSVal.null (JSVal.obj [("strict", JSVal.bool true)])
    (some "development") "SYS_VALIDATION_FAILED"
    "Validation failed: \x7breason\x7d. Problems: \x7bproblemsText\x7d"
    [JSVal.str "reason", JSVal.str "problems", JSVal.str "problemsText"]
    (JSVal.bool true) rfl rfl rfl (by simp) rfl rfl

/-!
## Template segments (for the placeholder-semantics claim)

A template is presented as a sequence of segments — literal runs that
contain no opening brace, and placeholders with a non-empty word-character
identifier.  `flattenSegs` produces the template text; `specRenderSegs` is
the spec-side rendering (each placeholder left verbatim or substituted,
literals untouched) against which the code's scanner is compared.
-/

inductive TemplateSeg where
  | lit (s : String)
  | ph (key : String)

/-- Well-formedness of a segment: a literal holds no opening brace; a
placeholder identifier is a non-empty run of word characters. -/
def segWFb : TemplateSeg → Bool
  | .lit s => s.data.all (fun c => c != lbrace)
  | .ph k => !k.data.isEmpty && k.data.all isWordChar

/-- The template text denoted by a segment sequence. -/
def flattenSegs : List TemplateSeg → List Char
  | [] => []
  | .lit s :: rest => s.data ++ flattenSegs rest
  | .ph k :: rest => lbrace :: (k.data ++ (rbrace :: flattenSegs rest))

/-- Modelled from the spec (section 4.1, claim C7): the fate of one
placeholder — left verbatim, braces included, when the key is absent from
the context or bound to `null`/`undefined`, and otherwise replaced by the
bound value's display-string form. -/
def specSubst (context : JSVal) (k : String) : List Char :=
  match jsGet context k with
  | .undef => lbrace :: (k.data ++ [rbrace])
  | .null => lbrace :: (k.data ++ [rbrace])
  | v => (jsToString v).data

/-- Modelled from the spec (section 4.1, claim C7): segment-wise rendering —
literals verbatim, each placeholder treated by `specSubst`. -/
def specRenderSegs (context : JSVal) : List TemplateSeg → List Char
  | [] => []
  | .lit s :: rest => s.data ++ specRenderSegs context rest
  | .ph k :: rest => specSubst context k ++ specRenderSegs context rest

theorem strMkData (s : String) : String.mk s.data = s := rfl

theorem replaceCb_obj (fs : List (String × JSVal)) (k m : String) :
    replaceCb (JSVal.obj fs) k m = Except.ok (replaceCbSE (JSVal.obj fs) k m) := by
  cases h : jsGet (JSVal.obj fs) k <;>
    simp [replaceCb, replaceCbSE, jsGetProp, jsOptChain, h]

theorem replaceCbSE_subst (fs : List (String × JSVal)) (k : String) :
    (replaceCbSE (JSVal.obj fs) k (String.mk (lbrace :: (k.data ++ [rbrace])))).data
      = specSubst (JSVal.obj fs) k := by
  cases h : jsGet (JSVal.obj fs) k <;>
    simp [replaceCbSE, specSubst, jsOptChain, h]

/-- On an object context the throwing scanner of errors.js v0.1.5 never
throws and agrees with the pure v0.2.0 scanner (their callbacks coincide
when indexed access cannot throw). -/
theorem replaceScan_obj (fs : List (String × JSVal)) :
    ∀ (l : List Char) (mode : Option (List Char)),
      replaceScan (JSVal.obj fs) mode l =
        Except.ok (replaceScanSE (JSVal.obj fs) mode l) := by
  intro l
  induction l with
  | nil =>
      intro mode
      cases mode <;> rfl
  | cons c rest ih =>
      intro mode
      cases mode with
      | none =>
          simp only [replaceScan, replaceScanSE]
          by_cases hc : c = lbrace
          · rw [if_pos hc, if_pos hc, ih (some [])]
          · rw [if_neg hc, if_neg hc, ih none]
      | some acc =>
          simp only [replaceScan, replaceScanSE]
          by_cases hw : isWordChar c = true
          · rw [if_pos hw, if_pos hw, ih (some (c :: acc))]
          · rw [if_neg hw, if_neg hw]
            by_cases hr : c = rbrace
            · rw [if_pos hr, if_pos hr]
              by_cases hacc : acc.isEmpty = true
              · rw [if_pos hacc, if_pos hacc, ih none]
              · rw [if_neg hacc, if_neg hacc, replaceCb_obj, ih none]
            · rw [if_neg hr, if_neg hr]
              by_cases hl : c = lbrace
              · rw [if_pos hl, if_pos hl, ih (some [])]
              · rw [if_neg hl, if_neg hl, ih none]

/-- A literal run without opening braces passes through the scanner
verbatim. -/
theorem replaceScanSE_lit (ctx : JSVal) (s rest : List Char)
    (h : ∀ c ∈ s, (c != lbrace) = true) :
    replaceScanSE ctx none (s ++ rest) = s ++ replaceScanSE ctx none rest := by
  induction s with
  | nil => simp
  | cons c cs ih =>
      have hc : ¬ c = lbrace := by simpa using h c (List.mem_cons_self c cs)
      simp only [List.cons_append, replaceScanSE, if_neg hc, List.append_eq]
      rw [ih (fun d hd => h d (List.mem_cons_of_mem c hd))]

/-- Inside a candidate placeholder, a word run followed by a closing brace
closes the match and invokes the callback on the full identifier. -/
theorem replaceScanSE_ph (ctx : JSVal) (w : List Char) :
    ∀ acc rest, (∀ c ∈ w, isWordChar c = true) → (acc ≠ [] ∨ w ≠ []) →
    replaceScanSE ctx (some acc) (w ++ rbrace :: rest) =
      (replaceCbSE ctx (String.mk (acc.reverse ++ w))
        (String.mk (lbrace :: ((acc.reverse ++ w) ++ [rbrace])))).data
        ++ replaceScanSE ctx none rest := by
  induction w with
  | nil =>
      intro acc rest _ hne
      have hacc : acc ≠ [] := by
        rcases hne with h | h
        · exact h
        · exact absurd rfl h
      have haccE : ¬ acc.isEmpty = true := by
        cases acc
        · exact absurd rfl hacc
        · simp
      have hwb : ¬ isWordChar rbrace = true := by decide
      have hrb : rbrace = rbrace := rfl
      simp only [List.nil_append, replaceScanSE, if_neg hwb, if_pos hrb, if_neg haccE,
        List.append_nil, eq_self_iff_true, if_true]
  | cons c w' ih =>
      intro acc rest hw hne
      have hcw : isWordChar c = true := hw c (List.mem_cons_self c w')
      simp only [List.cons_append, replaceScanSE, if_pos hcw, List.append_eq]
      rw [ih (c :: acc) rest (fun d hd => hw d (List.mem_cons_of_mem c hd))
        (Or.inl (by simp))]
      simp [List.reverse_cons, List.append_assoc]

/-- The scanner renders a well-formed segment sequence segment-wise. -/
theorem replaceScanSE_flatten (fs : List (String × JSVal)) (segs : List TemplateSeg)
    (h : ∀ seg ∈ segs, segWFb seg = true) :
    replaceScanSE (JSVal.obj fs) none (flattenSegs segs) =
      specRenderSegs (JSVal.obj fs) segs := by
  induction segs with
  | nil => rfl
  | cons seg rest ih =>
      have hseg := h seg (List.mem_cons_self _ _)
      have hrest : ∀ s ∈ rest, segWFb s = true := fun s hs => h s (List.mem_cons_of_mem _ hs)
      cases seg with
      | lit s =>
          have hlit : ∀ c ∈ s.data, (c != lbrace) = true := by
            simpa [segWFb, List.all_eq_true] using hseg
          simp only [flattenSegs, specRenderSegs]
          rw [replaceScanSE_lit _ _ _ hlit, ih hrest]
      | ph k =>
          have hk : ¬ k.data.isEmpty = true ∧ ∀ c ∈ k.data, isWordChar c = true := by
            simpa [segWFb, List.all_eq_true] using hseg
          have hkne : k.data ≠ [] := by
            cases hd : k.data
            · rw [hd] at hk
              exact absurd rfl hk.1
            · simp
          simp only [flattenSegs, specRenderSegs, replaceScanSE, if_pos rfl]
          rw [replaceScanSE_ph _ _ [] _ hk.2 (Or.inr hkne)]
          simp only [List.reverse_nil, List.nil_append, strMkData]
          rw [replaceCbSE_subst, ih hrest]
          simp only [eq_self_iff_true, if_true]

/-- C7: for every template string (presented as a well-formed segment
sequence) and every keyed context, each `\x7bidentifier\x7d` placeholder
whose key is absent from the context, or whose value is null or undefined,
is left verbatim in the rendered output (braces included), while every
placeholder bound to any other value is replaced by that value's
display-string form; literal text is untouched. -/
theorem formatMessage_placeholder_semantics (segs : List TemplateSeg)
    (fs : List (String × JSVal)) (h : ∀ seg ∈ segs, segWFb seg = true) :
    formatMessage (JSVal.str (String.mk (flattenSegs segs))) (JSVal.obj fs) =
      Except.ok (String.mk (specRenderSegs (JSVal.obj fs) segs)) := by
  unfold formatMessage
  dsimp only
  rw [replaceScan_obj fs (flattenSegs segs) none]
  dsimp only
  rw [replaceScanSE_flatten fs segs h]

/-- Closed witness for C7 at a concrete input: the spec's own example —
rendering "Values: \x7ba\x7d, \x7bb\x7d" against a context where `a` is
null and `b` is absent leaves both placeholders verbatim. -/
theorem formatMessage_placeholder_semantics_witness :
    (∀ seg ∈ [TemplateSeg.lit "Values: ", TemplateSeg.ph "a", TemplateSeg.lit ", ",
        TemplateSeg.ph "b"], segWFb seg = true) ∧
    formatMessage (JSVal.str (String.mk (flattenSegs
        [TemplateSeg.lit "Values: ", TemplateSeg.ph "a", TemplateSeg.lit ", ",
          TemplateSeg.ph "b"]))) (JSVal.obj [("a", JSVal.null)]) =
      Except.ok (String.mk (specRenderSegs (JSVal.obj [("a", JSVal.null)])
        [TemplateSeg.lit "Values: ", TemplateSeg.ph "a", TemplateSeg.lit ", ",
          TemplateSeg.ph "b"])) :=
  ⟨by decide,
    formatMessage_placeholder_semantics
      [TemplateSeg.lit "Values: ", TemplateSeg.ph "a", TemplateSeg.lit ", ",
        TemplateSeg.ph "b"] [("a", JSVal.null)] (by decide)⟩

end SysErrors
